import Mathlib

/-!
Verification of the body-composition and perimeter-analysis services of the
`dashboard-avaliacao-fisica` repository.

The Python modules `servicos/calculadora_corporal.py` and
`servicos/analisador_perimetros.py` are shallowly embedded below.  Numbers are
modelled as exact rationals `ℚ`; Python's `round(x, n)` appears as `roundTo n x`;
Python dictionaries with a numeric `get(key, 0)` default appear as association
lists `List (String × ℚ)` read through `dget`; the `float("inf")` threshold that
ends each classification table appears as the `none` case of an `Option ℚ`
threshold, which every value satisfies.
-/

namespace AvaliacaoFisica

/-- Python `round(x, n)`: scale by `10 ^ n`, round to the nearest integer, scale
back.  Ties are modelled as round-half-up; at every half-way point exercised in
this development Python's round-half-to-even picks the same value. -/
def roundTo (n : ℕ) (x : ℚ) : ℚ := ((round (x * 10 ^ n) : ℤ) : ℚ) / 10 ^ n

/-- Python `str.lower()` modelled charwise; the strings compared in the source
are handled by the ASCII lowering of `Char.toLower`. -/
def strLower (s : String) : String := String.mk (s.data.map Char.toLower)

/-- Python `dict.get(key, 0)` on a dictionary of measurements. -/
def dget (d : List (String × ℚ)) (k : String) : ℚ :=
  match d.find? (fun p => p.1 == k) with
  | some p => p.2
  | none => 0

/-! ### `servicos/calculadora_corporal.py` -/

/-- `FATORES_ATIVIDADE`: activity factors for daily caloric expenditure. -/
def FATORES_ATIVIDADE : List (String × ℚ) :=
  [("Sedentário", 1.2),
   ("Levemente ativo", 1.375),
   ("Moderadamente ativo", 1.55),
   ("Muito ativo", 1.725),
   ("Extremamente ativo", 1.9)]

/-- `CLASSIFICACOES_IMC`: BMI thresholds; the final `float("inf")` entry is the
`none` threshold. -/
def CLASSIFICACOES_IMC : List (Option ℚ × String) :=
  [(some 18.5, "Abaixo do peso"),
   (some 24.9, "Peso normal"),
   (some 29.9, "Sobrepeso"),
   (some 34.9, "Obesidade grau I"),
   (some 39.9, "Obesidade grau II"),
   (none, "Obesidade grau III")]

/-- The shared `for limite, classificacao in tabela: if x <= limite: return
classificacao` loop of `classificar_imc` and `classificar_percentual_gordura`,
followed by the fall-through `return "Não classificado"`.  A `none` threshold is
Python's `float("inf")`, which every value satisfies. -/
def classificar_tabela (x : ℚ) : List (Option ℚ × String) → String
  | [] => "Não classificado"
  | (none, c) :: _ => c
  | (some l, c) :: resto => if x ≤ l then c else classificar_tabela x resto

/-- `calcular_imc(peso_kg, altura_cm)`. -/
def calcular_imc (peso_kg altura_cm : ℚ) : ℚ :=
  if peso_kg ≤ 0 ∨ altura_cm ≤ 0 then 0
  else
    let altura_metros := altura_cm / 100
    roundTo 2 (peso_kg / altura_metros ^ 2)

/-- `classificar_imc(imc)`. -/
def classificar_imc (imc : ℚ) : String :=
  if imc ≤ 0 then "Não calculado"
  else classificar_tabela imc CLASSIFICACOES_IMC

/-- `calcular_tmb(peso_kg, altura_cm, idade, genero)`, Mifflin-St Jeor. -/
def calcular_tmb (peso_kg altura_cm : ℚ) (idade : ℤ) (genero : String) : ℚ :=
  if peso_kg ≤ 0 ∨ altura_cm ≤ 0 ∨ idade ≤ 0 then 0
  else
    let tmb_base := 10 * peso_kg + 6.25 * altura_cm - 5 * (idade : ℚ)
    let tmb := if strLower genero = "masculino" then tmb_base + 5 else tmb_base - 161
    roundTo 1 tmb

/-- The `FATORES_ATIVIDADE.get(nivel_atividade, 1.2)` lookup used by
`calcular_gasto_calorico_diario`. -/
def fator_atividade (nivel_atividade : String) : ℚ :=
  match FATORES_ATIVIDADE.find? (fun p => p.1 == nivel_atividade) with
  | some p => p.2
  | none => 1.2

/-- `calcular_gasto_calorico_diario(tmb, nivel_atividade)` (TDEE). -/
def calcular_gasto_calorico_diario (tmb : ℚ) (nivel_atividade : String) : ℚ :=
  if tmb ≤ 0 then 0
  else roundTo 1 (tmb * fator_atividade nivel_atividade)

/-- `CLASSIFICACOES_GORDURA_MASCULINO`. -/
def CLASSIFICACOES_GORDURA_MASCULINO : List (Option ℚ × String) :=
  [(some 5.9, "Essencial"),
   (some 13.9, "Atlético"),
   (some 17.9, "Fitness"),
   (some 24.9, "Aceitável"),
   (none, "Obesidade")]

/-- `CLASSIFICACOES_GORDURA_FEMININO`. -/
def CLASSIFICACOES_GORDURA_FEMININO : List (Option ℚ × String) :=
  [(some 13.9, "Essencial"),
   (some 20.9, "Atlético"),
   (some 24.9, "Fitness"),
   (some 31.9, "Aceitável"),
   (none, "Obesidade")]

/-- The seven skinfold keys summed by `calcular_soma_7_dobras`. -/
def CHAVES_DOBRAS : List String :=
  ["peitoral", "axilar_media", "triceps", "subescapular",
   "abdominal", "suprailiaca", "coxa"]

/-- `calcular_soma_7_dobras(dobras)`. -/
def calcular_soma_7_dobras (dobras : List (String × ℚ)) : ℚ :=
  (CHAVES_DOBRAS.map (fun chave => dget dobras chave)).sum

/-- `calcular_densidade_corporal_pollock7(soma_dobras, idade, genero)`,
Jackson-Pollock 1978. -/
def calcular_densidade_corporal_pollock7 (soma_dobras : ℚ) (idade : ℤ)
    (genero : String) : ℚ :=
  if soma_dobras ≤ 0 ∨ idade ≤ 0 then 0
  else
    let dc :=
      if strLower genero = "masculino" then
        1.112 - 0.00043499 * soma_dobras + 0.00000055 * soma_dobras ^ 2
          - 0.00028826 * (idade : ℚ)
      else
        1.097 - 0.00046971 * soma_dobras + 0.00000056 * soma_dobras ^ 2
          - 0.00012828 * (idade : ℚ)
    roundTo 5 dc

/-- `calcular_percentual_gordura(densidade_corporal)`, Siri with the
`max(0, min(percentual, 60))` clamp. -/
def calcular_percentual_gordura (densidade_corporal : ℚ) : ℚ :=
  if densidade_corporal ≤ 0 then 0
  else roundTo 1 (max 0 (min ((4.95 / densidade_corporal - 4.5) * 100) 60))

/-- `classificar_percentual_gordura(percentual, genero)`. -/
def classificar_percentual_gordura (percentual : ℚ) (genero : String) : String :=
  if percentual ≤ 0 then "Não calculado"
  else
    classificar_tabela percentual
      (if strLower genero = "masculino" then CLASSIFICACOES_GORDURA_MASCULINO
       else CLASSIFICACOES_GORDURA_FEMININO)

/-- The dictionary returned by `calcular_gordura_pollock7`. -/
structure ResultadoPollock7 where
  soma_dobras : ℚ
  densidade_corporal : ℚ
  percentual_gordura : ℚ
  classificacao : String
  deriving DecidableEq

/-- `calcular_gordura_pollock7(dobras, idade, genero)`. -/
def calcular_gordura_pollock7 (dobras : List (String × ℚ)) (idade : ℤ)
    (genero : String) : ResultadoPollock7 :=
  let soma := calcular_soma_7_dobras dobras
  let densidade := calcular_densidade_corporal_pollock7 soma idade genero
  let percentual := calcular_percentual_gordura densidade
  let classificacao := classificar_percentual_gordura percentual genero
  { soma_dobras := soma,
    densidade_corporal := densidade,
    percentual_gordura := percentual,
    classificacao := classificacao }

/-! ### `servicos/analisador_perimetros.py` -/

/-- `NOMES_PERIMETROS`: display names of the perimeter keys. -/
def NOMES_PERIMETROS : List (String × String) :=
  [("braco_direito_relaxado", "Braço Dir. (Relaxado)"),
   ("braco_direito_contraido", "Braço Dir. (Contraído)"),
   ("braco_esquerdo_relaxado", "Braço Esq. (Relaxado)"),
   ("braco_esquerdo_contraido", "Braço Esq. (Contraído)"),
   ("antebraco_direito", "Antebraço Direito"),
   ("antebraco_esquerdo", "Antebraço Esquerdo"),
   ("ombro", "Ombro"),
   ("torax", "Tórax"),
   ("cintura", "Cintura"),
   ("abdomen", "Abdômen"),
   ("quadril", "Quadril"),
   ("coxa_superior_direita", "Coxa Sup. Direita"),
   ("coxa_superior_esquerda", "Coxa Sup. Esquerda"),
   ("coxa_media_direita", "Coxa Méd. Direita"),
   ("coxa_media_esquerda", "Coxa Méd. Esquerda"),
   ("coxa_inferior_direita", "Coxa Inf. Direita"),
   ("coxa_inferior_esquerda", "Coxa Inf. Esquerda"),
   ("panturrilha_direita", "Panturrilha Direita"),
   ("panturrilha_esquerda", "Panturrilha Esquerda")]

/-- `PARES_SIMETRIA`: the (right, left) pairs compared for symmetry. -/
def PARES_SIMETRIA : List (String × String) :=
  [("braco_direito_relaxado", "braco_esquerdo_relaxado"),
   ("braco_direito_contraido", "braco_esquerdo_contraido"),
   ("antebraco_direito", "antebraco_esquerdo"),
   ("coxa_superior_direita", "coxa_superior_esquerda"),
   ("coxa_media_direita", "coxa_media_esquerda"),
   ("coxa_inferior_direita", "coxa_inferior_esquerda"),
   ("panturrilha_direita", "panturrilha_esquerda")]

/-- `obter_nome_amigavel(chave_perimetro)`. -/
def obter_nome_amigavel (chave_perimetro : String) : String :=
  match NOMES_PERIMETROS.find? (fun p => p.1 == chave_perimetro) with
  | some p => p.2
  | none => chave_perimetro

/-- Python `s.split(" ")[0]`, used for the `membro` field. -/
def primeiraPalavra (s : String) : String :=
  String.mk (s.data.takeWhile (fun c => c ≠ ' '))

/-- The dictionary returned by `calcular_diferenca_simetria`. -/
structure DiferencaSimetria where
  diferenca_cm : ℚ
  diferenca_percentual : ℚ
  lado_dominante : String
  deriving DecidableEq

/-- `calcular_diferenca_simetria(lado_direito, lado_esquerdo)`. -/
def calcular_diferenca_simetria (lado_direito lado_esquerdo : ℚ) :
    DiferencaSimetria :=
  let diferenca_absoluta := |lado_direito - lado_esquerdo|
  let diferenca_percentual :=
    if 0 < lado_esquerdo then diferenca_absoluta / lado_esquerdo * 100 else 0
  let lado_dominante :=
    if lado_esquerdo < lado_direito then "Direito"
    else if lado_direito < lado_esquerdo then "Esquerdo"
    else "Igual"
  { diferenca_cm := roundTo 1 diferenca_absoluta,
    diferenca_percentual := roundTo 1 diferenca_percentual,
    lado_dominante := lado_dominante }

/-- One element of the list built by `analisar_simetria_completa`: the
`calcular_diferenca_simetria` dictionary extended in place with `membro`,
`valor_direito` and `valor_esquerdo`. -/
structure AnaliseSimetria where
  diferenca_cm : ℚ
  diferenca_percentual : ℚ
  lado_dominante : String
  membro : String
  valor_direito : ℚ
  valor_esquerdo : ℚ
  deriving DecidableEq

/-- The `for chave_direita, chave_esquerda in PARES_SIMETRIA` loop of
`analisar_simetria_completa`, appending one analysis per pair whose two sides
are both positive. -/
def analisar_simetria_aux (perimetros : List (String × ℚ)) :
    List (String × String) → List AnaliseSimetria
  | [] => []
  | (chave_direita, chave_esquerda) :: resto =>
    let valor_direito := dget perimetros chave_direita
    let valor_esquerdo := dget perimetros chave_esquerda
    if 0 < valor_direito ∧ 0 < valor_esquerdo then
      let analise := calcular_diferenca_simetria valor_direito valor_esquerdo
      { diferenca_cm := analise.diferenca_cm,
        diferenca_percentual := analise.diferenca_percentual,
        lado_dominante := analise.lado_dominante,
        membro := primeiraPalavra (obter_nome_amigavel chave_direita),
        valor_direito := valor_direito,
        valor_esquerdo := valor_esquerdo } :: analisar_simetria_aux perimetros resto
    else analisar_simetria_aux perimetros resto

/-- `analisar_simetria_completa(perimetros)`. -/
def analisar_simetria_completa (perimetros : List (String × ℚ)) :
    List AnaliseSimetria :=
  analisar_simetria_aux perimetros PARES_SIMETRIA

/-- One value of the dictionary built by `calcular_variacao_entre_avaliacoes`. -/
structure Variacao where
  nome : String
  anterior : ℚ
  atual : ℚ
  diferenca_cm : ℚ
  diferenca_percentual : ℚ
  status : String
  deriving DecidableEq

/-- The `for chave in NOMES_PERIMETROS.keys()` loop of
`calcular_variacao_entre_avaliacoes`, inserting one entry per key whose value is
positive in both snapshots. -/
def variacao_aux (perimetros_anterior perimetros_atual : List (String × ℚ)) :
    List String → List (String × Variacao)
  | [] => []
  | chave :: resto =>
    let valor_anterior := dget perimetros_anterior chave
    let valor_atual := dget perimetros_atual chave
    if 0 < valor_anterior ∧ 0 < valor_atual then
      let diferenca := valor_atual - valor_anterior
      let percentual := diferenca / valor_anterior * 100
      (chave,
        { nome := obter_nome_amigavel chave,
          anterior := valor_anterior,
          atual := valor_atual,
          diferenca_cm := roundTo 1 diferenca,
          diferenca_percentual := roundTo 1 percentual,
          status :=
            if 0 < diferenca then "aumento"
            else if diferenca < 0 then "reducao"
            else "igual" }) :: variacao_aux perimetros_anterior perimetros_atual resto
    else variacao_aux perimetros_anterior perimetros_atual resto

/-- `calcular_variacao_entre_avaliacoes(perimetros_anterior, perimetros_atual)`;
Python dict insertion order is the key order of `NOMES_PERIMETROS`. -/
def calcular_variacao_entre_avaliacoes
    (perimetros_anterior perimetros_atual : List (String × ℚ)) :
    List (String × Variacao) :=
  variacao_aux perimetros_anterior perimetros_atual (NOMES_PERIMETROS.map Prod.fst)

/-! ### Helper lemmas -/

theorem strLower_Masculino : strLower "Masculino" = "masculino" := by decide

theorem strLower_Feminino_ne : strLower "Feminino" ≠ "masculino" := by decide

theorem round_q_mono {a b : ℚ} (hab : a ≤ b) : round a ≤ round b := by
  rw [round_eq, round_eq]
  exact Int.floor_mono (by linarith)

theorem roundTo1_bounds (x : ℚ) (h0 : 0 ≤ x) (h60 : x ≤ 60) :
    0 ≤ roundTo 1 x ∧ roundTo 1 x ≤ 60 := by
  have hlo : (0 : ℤ) ≤ round (x * 10 ^ 1) := by
    have h := round_q_mono (a := 0) (b := x * 10 ^ 1) (by nlinarith)
    simpa using h
  have hhi : round (x * 10 ^ 1) ≤ (600 : ℤ) := by
    have h := round_q_mono (a := x * 10 ^ 1) (b := ((600 : ℤ) : ℚ)) (by push_cast; nlinarith)
    rwa [round_intCast] at h
  unfold roundTo
  constructor
  · apply div_nonneg _ (by norm_num)
    exact_mod_cast hlo
  · rw [div_le_iff₀ (by norm_num)]
    calc ((round (x * 10 ^ 1) : ℤ) : ℚ) ≤ ((600 : ℤ) : ℚ) := by exact_mod_cast hhi
    _ = 60 * 10 ^ 1 := by norm_num

/-! ### Claim theorems -/

/-- C1: `classificar_imc` maps its input by the ordered threshold table with
inclusive upper bounds: `≤ 18.5` Abaixo do peso, `≤ 24.9` Peso normal, `≤ 29.9`
Sobrepeso, `≤ 34.9` Obesidade grau I, `≤ 39.9` Obesidade grau II, `> 39.9`
Obesidade grau III, and `≤ 0` Não calculado; `18.5` itself falls in the
underweight bucket. -/
theorem classificar_imc_thresholds (b : ℚ) :
    (b ≤ 0 → classificar_imc b = "Não calculado") ∧
    (0 < b → b ≤ 18.5 → classificar_imc b = "Abaixo do peso") ∧
    (18.5 < b → b ≤ 24.9 → classificar_imc b = "Peso normal") ∧
    (24.9 < b → b ≤ 29.9 → classificar_imc b = "Sobrepeso") ∧
    (29.9 < b → b ≤ 34.9 → classificar_imc b = "Obesidade grau I") ∧
    (34.9 < b → b ≤ 39.9 → classificar_imc b = "Obesidade grau II") ∧
    (39.9 < b → classificar_imc b = "Obesidade grau III") := by
  refine ⟨fun h1 => ?_, fun h1 h2 => ?_, fun h1 h2 => ?_, fun h1 h2 => ?_,
    fun h1 h2 => ?_, fun h1 h2 => ?_, fun h1 => ?_⟩ <;>
    simp only [classificar_imc, CLASSIFICACOES_IMC, classificar_tabela] <;>
    split_ifs <;> first | rfl | (exfalso; linarith)

/-- Witness for C1: the boundary value 18.5 is classified underweight and 40 is
Obesidade grau III. -/
theorem classificar_imc_thresholds_witness :
    classificar_imc 18.5 = "Abaixo do peso" ∧
    classificar_imc 40 = "Obesidade grau III" :=
  ⟨(classificar_imc_thresholds 18.5).2.1 (by norm_num) (by norm_num),
   (classificar_imc_thresholds 40).2.2.2.2.2.2 (by norm_num)⟩

/-- C2: `calcular_imc` returns `round(w / (h/100)^2, 2)` for positive weight and
height and `0.0` whenever either input is `≤ 0`, so the division is always
guarded. -/
theorem calcular_imc_spec (w h : ℚ) :
    (0 < w → 0 < h → calcular_imc w h = roundTo 2 (w / (h / 100) ^ 2)) ∧
    (w ≤ 0 ∨ h ≤ 0 → calcular_imc w h = 0) := by
  constructor
  · intro hw hh
    rw [calcular_imc, if_neg]
    push_neg
    exact ⟨hw, hh⟩
  · intro hdeg
    rw [calcular_imc, if_pos hdeg]

/-- Witness for C2 at weight 70 kg, height 175 cm, and at height 0. -/
theorem calcular_imc_spec_witness :
    calcular_imc 70 175 = roundTo 2 ((70 : ℚ) / ((175 : ℚ) / 100) ^ 2) ∧
    calcular_imc 70 0 = 0 :=
  ⟨(calcular_imc_spec 70 175).1 (by norm_num) (by norm_num),
   (calcular_imc_spec 70 0).2 (Or.inr (by norm_num))⟩

/-- Counterexample for C3: the claim's concrete values are wrong on this code.
`10*70 + 6.25*175 - 5*30 + 5 = 1648.75`, so `calcular_tmb 70 175 30 "Masculino"`
is `1648.8`, not the claimed `1673.8`, and the female value is `1482.8`, not the
claimed `1507.8`. -/
theorem calcular_tmb_exemplo_falso :
    calcular_tmb 70 175 30 "Masculino" ≠ 1673.8 ∧
    calcular_tmb 70 175 30 "Feminino" ≠ 1507.8 := by
  constructor <;>
    norm_num [calcular_tmb, strLower_Masculino, strLower_Feminino_ne,
      roundTo, round_eq]

/-- C3 (amended): `calcular_tmb` implements Mifflin-St Jeor —
`round(10w + 6.25h - 5a + 5, 1)` when the lower-cased gender is "masculino" and
`round(10w + 6.25h - 5a - 161, 1)` otherwise, `0.0` when any of weight, height,
age is `≤ 0`; concretely `calcular_tmb 70 175 30` is `1648.8` for Masculino and
`1482.8` for Feminino, the female value lying 166 below the male value. -/
theorem calcular_tmb_spec_amended (w h : ℚ) (a : ℤ) (g : String) :
    (0 < w → 0 < h → 0 < a →
      calcular_tmb w h a g =
        if strLower g = "masculino" then
          roundTo 1 (10 * w + 6.25 * h - 5 * (a : ℚ) + 5)
        else
          roundTo 1 (10 * w + 6.25 * h - 5 * (a : ℚ) - 161)) ∧
    (w ≤ 0 ∨ h ≤ 0 ∨ a ≤ 0 → calcular_tmb w h a g = 0) ∧
    calcular_tmb 70 175 30 "Masculino" = 1648.8 ∧
    calcular_tmb 70 175 30 "Feminino" = 1482.8 ∧
    calcular_tmb 70 175 30 "Masculino" - calcular_tmb 70 175 30 "Feminino" = 166 := by
  refine ⟨?_, ?_, ?_, ?_, ?_⟩
  · intro hw hh ha
    have hnd : ¬(w ≤ 0 ∨ h ≤ 0 ∨ a ≤ 0) := by push_neg; exact ⟨hw, hh, ha⟩
    by_cases hg : strLower g = "masculino" <;> simp [calcular_tmb, hnd, hg]
  · intro hdeg
    rw [calcular_tmb, if_pos hdeg]
  · norm_num [calcular_tmb, strLower_Masculino, roundTo, round_eq]
  · norm_num [calcular_tmb, strLower_Feminino_ne, roundTo, round_eq]
  · norm_num [calcular_tmb, strLower_Masculino, strLower_Feminino_ne,
      roundTo, round_eq]

/-- Witness for C3 (amended): the formula branch evaluated at 70 kg, 175 cm,
age 30, and the degenerate branch at age 0. -/
theorem calcular_tmb_spec_witness :
    (calcular_tmb 70 175 30 "Masculino" =
      if strLower "Masculino" = "masculino" then
        roundTo 1 (10 * 70 + 6.25 * 175 - 5 * ((30 : ℤ) : ℚ) + 5)
      else
        roundTo 1 (10 * 70 + 6.25 * 175 - 5 * ((30 : ℤ) : ℚ) - 161)) ∧
    calcular_tmb 70 175 0 "Masculino" = 0 :=
  ⟨(calcular_tmb_spec_amended 70 175 30 "Masculino").1 (by norm_num) (by norm_num)
      (by norm_num),
   (calcular_tmb_spec_amended 70 175 0 "Masculino").2.1 (Or.inr (Or.inr le_rfl))⟩

/-- C4: `calcular_percentual_gordura` is total and bounded — for every density
`d > 0` it returns `round(clamp((4.95/d - 4.5) * 100, 0, 60), 1)`, which lies in
`[0, 60]` however extreme the positive density; for every `d ≤ 0` it returns
`0.0`. -/
theorem percentual_gordura_spec (d : ℚ) :
    (0 < d →
      calcular_percentual_gordura d =
        roundTo 1 (max 0 (min ((4.95 / d - 4.5) * 100) 60)) ∧
      0 ≤ calcular_percentual_gordura d ∧ calcular_percentual_gordura d ≤ 60) ∧
    (d ≤ 0 → calcular_percentual_gordura d = 0) := by
  constructor
  · intro hd
    have heq : calcular_percentual_gordura d =
        roundTo 1 (max 0 (min ((4.95 / d - 4.5) * 100) 60)) := by
      rw [calcular_percentual_gordura, if_neg (not_le.mpr hd)]
    have hb := roundTo1_bounds (max 0 (min ((4.95 / d - 4.5) * 100) 60))
      (le_max_left _ _) (max_le (by norm_num) (min_le_right _ _))
    exact ⟨heq, heq ▸ hb.1, heq ▸ hb.2⟩
  · intro hd
    rw [calcular_percentual_gordura, if_pos hd]

/-- Witness for C4 at the extreme density 1/1000 (raw Siri value 494550, clamped
to 60) and at density 0. -/
theorem percentual_gordura_spec_witness :
    (calcular_percentual_gordura (1 / 1000) =
        roundTo 1 (max 0 (min ((4.95 / (1 / 1000) - 4.5) * 100) 60)) ∧
      0 ≤ calcular_percentual_gordura (1 / 1000) ∧
      calcular_percentual_gordura (1 / 1000) ≤ 60) ∧
    calcular_percentual_gordura 0 = 0 :=
  ⟨(percentual_gordura_spec (1 / 1000)).1 (by norm_num),
   (percentual_gordura_spec 0).2 le_rfl⟩

/-- C5: `calcular_gordura_pollock7` is exactly the four-stage composition of
`calcular_soma_7_dobras`, `calcular_densidade_corporal_pollock7`,
`calcular_percentual_gordura` and `classificar_percentual_gordura`, and when the
skinfold sum or the age is `≤ 0` the sentinels propagate: density 0, percent fat
0, classification "Não calculado". -/
theorem gordura_pollock7_spec (dobras : List (String × ℚ)) (idade : ℤ)
    (genero : String) :
    calcular_gordura_pollock7 dobras idade genero =
      { soma_dobras := calcular_soma_7_dobras dobras,
        densidade_corporal :=
          calcular_densidade_corporal_pollock7 (calcular_soma_7_dobras dobras)
            idade genero,
        percentual_gordura :=
          calcular_percentual_gordura
            (calcular_densidade_corporal_pollock7 (calcular_soma_7_dobras dobras)
              idade genero),
        classificacao :=
          classificar_percentual_gordura
            (calcular_percentual_gordura
              (calcular_densidade_corporal_pollock7 (calcular_soma_7_dobras dobras)
                idade genero)) genero } ∧
    (calcular_soma_7_dobras dobras ≤ 0 ∨ idade ≤ 0 →
      (calcular_gordura_pollock7 dobras idade genero).densidade_corporal = 0 ∧
      (calcular_gordura_pollock7 dobras idade genero).percentual_gordura = 0 ∧
      (calcular_gordura_pollock7 dobras idade genero).classificacao =
        "Não calculado") := by
  constructor
  · rfl
  · intro hdeg
    have hdens : calcular_densidade_corporal_pollock7 (calcular_soma_7_dobras dobras)
        idade genero = 0 := by
      rw [calcular_densidade_corporal_pollock7, if_pos hdeg]
    have hperc : calcular_percentual_gordura 0 = 0 := by
      rw [calcular_percentual_gordura, if_pos le_rfl]
    have hclass : classificar_percentual_gordura 0 genero = "Não calculado" := by
      rw [classificar_percentual_gordura, if_pos le_rfl]
    refine ⟨?_, ?_, ?_⟩ <;> simp [calcular_gordura_pollock7, hdens, hperc, hclass]

/-- Witness for C5: with an empty skinfold dictionary the sum is 0 and every
downstream sentinel fires. -/
theorem gordura_pollock7_spec_witness :
    (calcular_gordura_pollock7 [] 30 "Masculino").densidade_corporal = 0 ∧
    (calcular_gordura_pollock7 [] 30 "Masculino").percentual_gordura = 0 ∧
    (calcular_gordura_pollock7 [] 30 "Masculino").classificacao = "Não calculado" :=
  (gordura_pollock7_spec [] 30 "Masculino").2
    (Or.inl (by norm_num [calcular_soma_7_dobras, CHAVES_DOBRAS, dget]))

/-- C6: `calcular_gasto_calorico_diario` returns `round(tmb * fator, 1)` where
the factor comes from the activity table (Sedentário 1.2, Levemente ativo 1.375,
Moderadamente ativo 1.55, Muito ativo 1.725, Extremamente ativo 1.9); any level
outside the five keys behaves exactly like Sedentário (factor 1.2), and
`tmb ≤ 0` yields `0.0` for every level. -/
theorem gasto_calorico_spec (tmb : ℚ) (nivel : String) :
    (tmb ≤ 0 → calcular_gasto_calorico_diario tmb nivel = 0) ∧
    (0 < tmb →
      calcular_gasto_calorico_diario tmb nivel =
        roundTo 1 (tmb * fator_atividade nivel)) ∧
    (fator_atividade "Sedentário" = 1.2 ∧
     fator_atividade "Levemente ativo" = 1.375 ∧
     fator_atividade "Moderadamente ativo" = 1.55 ∧
     fator_atividade "Muito ativo" = 1.725 ∧
     fator_atividade "Extremamente ativo" = 1.9) ∧
    (nivel ≠ "Sedentário" → nivel ≠ "Levemente ativo" →
     nivel ≠ "Moderadamente ativo" → nivel ≠ "Muito ativo" →
     nivel ≠ "Extremamente ativo" →
      calcular_gasto_calorico_diario tmb nivel =
        calcular_gasto_calorico_diario tmb "Sedentário") := by
  refine ⟨?_, ?_, ?_, ?_⟩
  · intro hdeg
    rw [calcular_gasto_calorico_diario, if_pos hdeg]
  · intro htmb
    rw [calcular_gasto_calorico_diario, if_neg (not_le.mpr htmb)]
  · refine ⟨?_, ?_, ?_, ?_, ?_⟩ <;> rfl
  · intro h1 h2 h3 h4 h5
    have hf : fator_atividade nivel = 1.2 := by
      have b1 : (("Sedentário" : String) == nivel) = false :=
        beq_eq_false_iff_ne.mpr (Ne.symm h1)
      have b2 : (("Levemente ativo" : String) == nivel) = false :=
        beq_eq_false_iff_ne.mpr (Ne.symm h2)
      have b3 : (("Moderadamente ativo" : String) == nivel) = false :=
        beq_eq_false_iff_ne.mpr (Ne.symm h3)
      have b4 : (("Muito ativo" : String) == nivel) = false :=
        beq_eq_false_iff_ne.mpr (Ne.symm h4)
      have b5 : (("Extremamente ativo" : String) == nivel) = false :=
        beq_eq_false_iff_ne.mpr (Ne.symm h5)
      simp [fator_atividade, FATORES_ATIVIDADE, List.find?, b1, b2, b3, b4, b5]
    have hs : fator_atividade "Sedentário" = 1.2 := rfl
    rw [calcular_gasto_calorico_diario, calcular_gasto_calorico_diario, hf, hs]

/-- Witness for C6: a level string outside the table behaves like Sedentário,
and a nonpositive BMR short-circuits to 0. -/
theorem gasto_calorico_spec_witness :
    calcular_gasto_calorico_diario 1673.8 "Atividade desconhecida" =
      calcular_gasto_calorico_diario 1673.8 "Sedentário" ∧
    calcular_gasto_calorico_diario 1673.8 "Sedentário" =
      roundTo 1 (1673.8 * fator_atividade "Sedentário") ∧
    calcular_gasto_calorico_diario 0 "Sedentário" = 0 :=
  ⟨(gasto_calorico_spec 1673.8 "Atividade desconhecida").2.2.2
      (by decide) (by decide) (by decide) (by decide) (by decide),
   (gasto_calorico_spec 1673.8 "Sedentário").2.1 (by norm_num),
   (gasto_calorico_spec 0 "Sedentário").1 le_rfl⟩

/-- C9: gender comparison is case-normalized and falls through to the female
branch for every unrecognized value — `calcular_tmb`,
`calcular_densidade_corporal_pollock7` and `classificar_percentual_gordura`
behave as for "Masculino" exactly when the lower-cased gender is "masculino" and
as for "Feminino" for every other string. -/
theorem genero_spec (w h : ℚ) (a : ℤ) (g : String) (soma pct : ℚ) :
    (strLower g = "masculino" →
      calcular_tmb w h a g = calcular_tmb w h a "Masculino" ∧
      calcular_densidade_corporal_pollock7 soma a g =
        calcular_densidade_corporal_pollock7 soma a "Masculino" ∧
      classificar_percentual_gordura pct g =
        classificar_percentual_gordura pct "Masculino") ∧
    (strLower g ≠ "masculino" →
      calcular_tmb w h a g = calcular_tmb w h a "Feminino" ∧
      calcular_densidade_corporal_pollock7 soma a g =
        calcular_densidade_corporal_pollock7 soma a "Feminino" ∧
      classificar_percentual_gordura pct g =
        classificar_percentual_gordura pct "Feminino") := by
  constructor <;> intro hg <;>
    refine ⟨?_, ?_, ?_⟩ <;>
      simp [calcular_tmb, calcular_densidade_corporal_pollock7,
        classificar_percentual_gordura, hg, strLower_Masculino,
        strLower_Feminino_ne]

/-- Witness for C9: an upper-cased "MASCULINO" is treated as male and an unknown
token "Outro" as female in the fat classification. -/
theorem genero_spec_witness :
    classificar_percentual_gordura 10 "MASCULINO" =
      classificar_percentual_gordura 10 "Masculino" ∧
    classificar_percentual_gordura 10 "Outro" =
      classificar_percentual_gordura 10 "Feminino" :=
  ⟨((genero_spec 70 175 30 "MASCULINO" 100 10).1 (by decide)).2.2,
   ((genero_spec 70 175 30 "Outro" 100 10).2 (by decide)).2.2⟩

theorem analisar_simetria_aux_filtra (p : List (String × ℚ))
    (l : List (String × String)) :
    analisar_simetria_aux p l =
      (l.filter (fun par => decide (0 < dget p par.1 ∧ 0 < dget p par.2))).map
        (fun par =>
          { diferenca_cm := roundTo 1 |dget p par.1 - dget p par.2|,
            diferenca_percentual :=
              roundTo 1
                (if 0 < dget p par.2 then
                  |dget p par.1 - dget p par.2| / dget p par.2 * 100
                else 0),
            lado_dominante :=
              if dget p par.2 < dget p par.1 then "Direito"
              else if dget p par.1 < dget p par.2 then "Esquerdo"
              else "Igual",
            membro := primeiraPalavra (obter_nome_amigavel par.1),
            valor_direito := dget p par.1,
            valor_esquerdo := dget p par.2 }) := by
  induction l with
  | nil => rfl
  | cons hd tl ih =>
    obtain ⟨cd, ce⟩ := hd
    by_cases hc : 0 < dget p cd ∧ 0 < dget p ce <;>
      simp [analisar_simetria_aux, calcular_diferenca_simetria, hc, ih]

/-- C7: `analisar_simetria_completa` produces exactly one entry per registered
symmetry pair whose two sides are both positive — pairs with a side `≤ 0` or
absent are silently omitted — and each entry carries the rounded absolute
difference, the percentage difference relative to the left side (0 when the left
side is `≤ 0`), and the dominant side; `calcular_diferenca_simetria 30 28` gives
difference 2.0, percentage 7.1 and dominant side "Direito". -/
theorem simetria_spec (p : List (String × ℚ)) :
    analisar_simetria_completa p =
      (PARES_SIMETRIA.filter
          (fun par => decide (0 < dget p par.1 ∧ 0 < dget p par.2))).map
        (fun par =>
          { diferenca_cm := roundTo 1 |dget p par.1 - dget p par.2|,
            diferenca_percentual :=
              roundTo 1
                (if 0 < dget p par.2 then
                  |dget p par.1 - dget p par.2| / dget p par.2 * 100
                else 0),
            lado_dominante :=
              if dget p par.2 < dget p par.1 then "Direito"
              else if dget p par.1 < dget p par.2 then "Esquerdo"
              else "Igual",
            membro := primeiraPalavra (obter_nome_amigavel par.1),
            valor_direito := dget p par.1,
            valor_esquerdo := dget p par.2 }) ∧
    calcular_diferenca_simetria 30 28 =
      { diferenca_cm := 2,
        diferenca_percentual := 7.1,
        lado_dominante := "Direito" } := by
  constructor
  · exact analisar_simetria_aux_filtra p PARES_SIMETRIA
  · norm_num [calcular_diferenca_simetria, roundTo, round_eq,
      DiferencaSimetria.mk.injEq, show |(30 : ℚ) - 28| = 2 by norm_num [abs_of_nonneg]]

theorem variacao_aux_filtra (ant atu : List (String × ℚ)) (l : List String) :
    variacao_aux ant atu l =
      (l.filter (fun chave => decide (0 < dget ant chave ∧ 0 < dget atu chave))).map
        (fun chave =>
          (chave,
            { nome := obter_nome_amigavel chave,
              anterior := dget ant chave,
              atual := dget atu chave,
              diferenca_cm := roundTo 1 (dget atu chave - dget ant chave),
              diferenca_percentual :=
                roundTo 1 ((dget atu chave - dget ant chave) / dget ant chave * 100),
              status :=
                if 0 < dget atu chave - dget ant chave then "aumento"
                else if dget atu chave - dget ant chave < 0 then "reducao"
                else "igual" })) := by
  induction l with
  | nil => rfl
  | cons hd tl ih =>
    by_cases hc : 0 < dget ant hd ∧ 0 < dget atu hd <;>
      simp [variacao_aux, hc, ih]

/-- C8: `calcular_variacao_entre_avaliacoes` has a result entry for a key if and
only if the key is positive in both snapshots — a key positive only in one of
them is absent, not zero-filled — and each entry carries the rounded absolute
difference, the percentage difference relative to the previous value, and the
status "aumento" / "reducao" / "igual" by the sign of the difference. -/
theorem variacao_spec (ant atu : List (String × ℚ)) :
    calcular_variacao_entre_avaliacoes ant atu =
      ((NOMES_PERIMETROS.map Prod.fst).filter
          (fun chave => decide (0 < dget ant chave ∧ 0 < dget atu chave))).map
        (fun chave =>
          (chave,
            { nome := obter_nome_amigavel chave,
              anterior := dget ant chave,
              atual := dget atu chave,
              diferenca_cm := roundTo 1 (dget atu chave - dget ant chave),
              diferenca_percentual :=
                roundTo 1 ((dget atu chave - dget ant chave) / dget ant chave * 100),
              status :=
                if 0 < dget atu chave - dget ant chave then "aumento"
                else if dget atu chave - dget ant chave < 0 then "reducao"
                else "igual" })) :=
  variacao_aux_filtra ant atu (NOMES_PERIMETROS.map Prod.fst)

/-- C10: the "Não classificado" fall-through after the threshold loop is
unreachable — every classification table ends with the `float("inf")` threshold,
so `classificar_imc` and `classificar_percentual_gordura` always return either
"Não calculado" or a named category label. -/
theorem nao_classificado_spec (x : ℚ) (g : String) :
    classificar_imc x ≠ "Não classificado" ∧
    classificar_percentual_gordura x g ≠ "Não classificado" := by
  constructor
  · simp only [classificar_imc, CLASSIFICACOES_IMC, classificar_tabela]
    split_ifs <;> decide
  · by_cases hg : strLower g = "masculino" <;>
      simp only [classificar_percentual_gordura, hg, if_true, if_false,
        ite_true, ite_false, CLASSIFICACOES_GORDURA_MASCULINO,
        CLASSIFICACOES_GORDURA_FEMININO, classificar_tabela] <;>
      split_ifs <;> decide

end AvaliacaoFisica
